import Mathlib

/-!
Verification development for the teleprompter server (`backend/main.py`).

The Python source is shallowly embedded: pure fragments become Lean
functions, the per-connection WebSocket handler becomes a step function
over an explicit session state, and the external Vosk engine, the
filesystem and the clock are abstracted as parameters.  Python string
primitives used by the source (`str.strip`, `str.lower`, `str.split`,
`str.replace`) are modelled by executable Lean functions below.
-/

namespace Prompter

/-- Python whitespace characters recognised by `str.strip()` / `str.split()`
(ASCII subset, which is what the source's data ever contains). -/
def isPySpace (c : Char) : Bool :=
  c = ' ' || c = '\t' || c = '\n' || c = '\r' || c = '\x0b' || c = '\x0c'

/-- Model of Python `s.strip()`: drop leading and trailing whitespace. -/
def pyStrip (s : String) : String :=
  String.mk (((s.toList.dropWhile isPySpace).reverse.dropWhile isPySpace).reverse)

/-- Helper for Python `s.split()` with no argument: accumulate the current
word (reversed) and split on runs of whitespace, emitting no empty words. -/
def wordsAux : List Char → List Char → List String
  | cur, [] => if cur.isEmpty then [] else [String.mk cur.reverse]
  | cur, c :: cs =>
    if isPySpace c then
      if cur.isEmpty then wordsAux [] cs
      else String.mk cur.reverse :: wordsAux [] cs
    else wordsAux (c :: cur) cs

/-- Model of Python `text.lower().split()`, used by the handler to derive the
`words` field of transcript events. -/
def pyWords (t : String) : List String :=
  wordsAux [] (t.toList.map Char.toLower)

/-- Whether `pat` occurs at the head of `l`. -/
def hasPre : List Char → List Char → Bool
  | [], _ => true
  | _ :: _, [] => false
  | p :: ps, c :: cs => p = c && hasPre ps cs

/-- Fuel-driven core of Python `s.replace(pat, rep)`: scan left to right,
replacing each non-overlapping occurrence of `pat`.  The fuel is the length
of the scanned list, which suffices because every step consumes at least one
character when `pat` is non-empty (all call sites use non-empty patterns). -/
def replAuxF (pat rep : List Char) : Nat → List Char → List Char
  | 0, l => l
  | _ + 1, [] => []
  | fuel + 1, c :: cs =>
    if hasPre pat (c :: cs) then
      rep ++ replAuxF pat rep fuel (List.drop pat.length (c :: cs))
    else
      c :: replAuxF pat rep fuel cs

/-- Model of Python `s.replace(pat, rep)` for non-empty `pat`. -/
def pyReplace (s pat rep : String) : String :=
  String.mk (replAuxF pat.toList rep.toList s.toList.length s.toList)

/-- Fuel-driven core of Python `s.split(sep)` for non-empty `sep`.  On an
empty remainder the accumulated word is emitted, so splitting the empty
string yields `[""]` exactly as in Python. -/
def splitSepAuxF (sep : List Char) : List Char → Nat → List Char → List String
  | cur, _, [] => [String.mk cur.reverse]
  | cur, 0, l => [String.mk (cur.reverse ++ l)]
  | cur, fuel + 1, c :: cs =>
    if hasPre sep (c :: cs) then
      String.mk cur.reverse :: splitSepAuxF sep [] fuel (List.drop sep.length (c :: cs))
    else
      splitSepAuxF sep (c :: cur) fuel cs

/-- Model of Python `s.split(sep)` for non-empty `sep`. -/
def pySplitSep (s sep : String) : List String :=
  splitSepAuxF sep.toList [] s.toList.length s.toList

/-- The token-stripping step of `get_available_models` (main.py line 90):
`name.replace("vosk-model-", "").replace("small-", "").replace("big-", "")`. -/
def strip_model_tokens (name : String) : String :=
  pyReplace (pyReplace (pyReplace name "vosk-model-" "") "small-" "") "big-" ""

/-- The `parts` list of `get_available_models` (main.py line 90): the
stripped name split on `"-"`. -/
def model_name_tokens (name : String) : List String :=
  pySplitSep (strip_model_tokens name) "-"

/-- The language-code derivation of `get_available_models`
(main.py lines 90-94): with `parts` the stripped-and-split name, the code is
`parts[0]-parts[1]` when there are at least two parts and the second has
exactly two characters, otherwise `parts[0]`, and `"unknown"` when `parts`
is empty. -/
def lang_code_of_name (name : String) : String :=
  match model_name_tokens name with
  | [] => "unknown"
  | [p0] => p0
  | p0 :: p1 :: _ => if p1.length = 2 then p0 ++ "-" ++ p1 else p0

example : model_name_tokens "vosk-model-small-en-us-0.15" = ["en", "us", "0.15"] := by decide

example : lang_code_of_name "vosk-model-small-en-us-0.15" = "en-us" := by decide

example : lang_code_of_name "vosk-model-fr-0.6" = "fr" := by decide

/-- C8: the registry strips the tokens `vosk-model-`, `small-`, `big-`,
splits the remainder on `-`, and returns `token0-token1` when at least two
tokens remain and the second has exactly two characters, otherwise `token0`,
and `"unknown"` when zero tokens remain; in particular
`"vosk-model-small-en-us-0.15"` yields `"en-us"` and `"vosk-model-fr-0.6"`
yields `"fr"`. -/
theorem spec_C8 (name : String) :
    (model_name_tokens name = [] → lang_code_of_name name = "unknown") ∧
    (∀ p0, model_name_tokens name = [p0] → lang_code_of_name name = p0) ∧
    (∀ p0 p1 rest, model_name_tokens name = p0 :: p1 :: rest →
      lang_code_of_name name = if p1.length = 2 then p0 ++ "-" ++ p1 else p0) ∧
    lang_code_of_name "vosk-model-small-en-us-0.15" = "en-us" ∧
    lang_code_of_name "vosk-model-fr-0.6" = "fr" := by
  refine ⟨fun h => ?_, fun p0 h => ?_, fun p0 p1 rest h => ?_, by decide, by decide⟩
  · simp [lang_code_of_name, h]
  · simp [lang_code_of_name, h]
  · simp [lang_code_of_name, h]

/-- C8 witness: the general clause of `spec_C8` applied at the concrete
model name `"vosk-model-small-en-us-0.15"`, whose token list is
`["en", "us", "0.15"]`. -/
theorem spec_C8_witness :
    lang_code_of_name "vosk-model-small-en-us-0.15" =
      if ("us" : String).length = 2 then "en" ++ "-" ++ "us" else "en" :=
  (spec_C8 "vosk-model-small-en-us-0.15").2.2.1 "en" "us" ["0.15"] (by decide)

/-! ## Script store (`save_script` / `load_script`, main.py lines 109-158)

The scripts directory is modelled as a map from code to stored record.
Timestamps (`datetime.utcnow().isoformat() + "Z"`) are abstracted as opaque
strings supplied by the caller.  The store is modelled as holding
well-formed records (every record written by `save_script` carries all six
fields, which is the only way records enter the directory in the source). -/

/-- The request body accepted by `POST /api/scripts` (`ScriptData`,
main.py lines 109-113). -/
structure ScriptData where
  script : String
  language : String := ""
  fontSize : Int := 48
  scrollMargin : Int := 30
deriving DecidableEq

/-- A stored script record: the JSON object written by `save_script`
(main.py lines 136-143). -/
structure StoredScript where
  script : String
  language : String
  fontSize : Int
  scrollMargin : Int
  created : String
  accessed : String
deriving DecidableEq

/-- The scripts directory: one optional record per code. -/
abbrev ScriptStore := String → Option StoredScript

/-- Writing one record file (`script_file.write_text`). -/
def store_set (fs : ScriptStore) (code : String) (rec : StoredScript) : ScriptStore :=
  fun c => if c = code then some rec else fs c

/-- Model of `save_script` (main.py lines 125-143): preserve the `created`
field of an existing record, otherwise stamp it `now`; every other field,
including `accessed`, is overwritten from the input and the clock. -/
def save_script (now : String) (code : String) (data : ScriptData) (fs : ScriptStore) :
    ScriptStore :=
  let created :=
    match fs code with
    | some existing => existing.created
    | none => now
  store_set fs code
    { script := data.script
      language := data.language
      fontSize := data.fontSize
      scrollMargin := data.scrollMargin
      created := created
      accessed := now }

/-- Model of `load_script` (main.py lines 146-158): `none` when no file
backs the code; otherwise rewrite the record with `accessed := now` and
return it. -/
def load_script (now : String) (code : String) (fs : ScriptStore) :
    Option StoredScript × ScriptStore :=
  match fs code with
  | none => (none, fs)
  | some d =>
    let d' := { d with accessed := now }
    (some d', store_set fs code d')

/-- A valid access code: exactly five characters, each a lowercase letter
or a digit (the alphabet of `generate_code`, main.py lines 116-122). -/
def isValidCode (code : String) : Bool :=
  code.length == 5 && code.toList.all fun c => c.isLower || c.isDigit

/-- Folding a list of subsequent saves over a store. -/
def save_many (code : String) (saves : List (String × ScriptData)) (fs : ScriptStore) :
    ScriptStore :=
  saves.foldl (fun s td => save_script td.1 code td.2 s) fs

lemma save_script_created_of_some {fs : ScriptStore} {code : String} {rec0 : StoredScript}
    (h : fs code = some rec0) (t : String) (d : ScriptData) :
    save_script t code d fs code =
      some { script := d.script, language := d.language, fontSize := d.fontSize,
             scrollMargin := d.scrollMargin, created := rec0.created, accessed := t } := by
  simp [save_script, store_set, h]

lemma save_many_preserves_created (code : String) (saves : List (String × ScriptData)) :
    ∀ (fs : ScriptStore) (rec0 : StoredScript), fs code = some rec0 →
      ∃ rec, save_many code saves fs code = some rec ∧ rec.created = rec0.created := by
  induction saves with
  | nil => exact fun fs rec0 h => ⟨rec0, h, rfl⟩
  | cons td rest ih =>
    intro fs rec0 h
    obtain ⟨rec, hrec, hcr⟩ :=
      ih (save_script td.1 code td.2 fs)
        { script := td.2.script, language := td.2.language, fontSize := td.2.fontSize,
          scrollMargin := td.2.scrollMargin, created := rec0.created, accessed := td.1 }
        (save_script_created_of_some h td.1 td.2)
    exact ⟨rec, hrec, by simpa using hcr⟩

/-- C6: saving a record and then loading it by its code returns a record
whose `script`, `language`, `fontSize` and `scrollMargin` equal the saved
input, differing from the stored record only in `accessed`, which is set to
the load time; and loading a valid five-character alphanumeric code with no
backing file returns not-found. -/
theorem spec_C6 (fs fs2 : ScriptStore) (code code2 : String) (data : ScriptData)
    (tSave tLoad t2 : String)
    (_hv : isValidCode code = true) (hnofile : fs code = none) :
    load_script t2 code fs = (none, fs) ∧
    ∃ rec, save_script tSave code2 data fs2 code2 = some rec ∧
      rec.script = data.script ∧ rec.language = data.language ∧
      rec.fontSize = data.fontSize ∧ rec.scrollMargin = data.scrollMargin ∧
      (load_script tLoad code2 (save_script tSave code2 data fs2)).1 =
        some { rec with accessed := tLoad } := by
  constructor
  · simp [load_script, hnofile]
  · cases h2 : fs2 code2 with
    | none =>
      refine ⟨{ script := data.script, language := data.language, fontSize := data.fontSize,
                scrollMargin := data.scrollMargin, created := tSave, accessed := tSave },
              ?_, rfl, rfl, rfl, rfl, ?_⟩
      · simp [save_script, store_set, h2]
      · simp [load_script, save_script, store_set, h2]
    | some e =>
      refine ⟨{ script := data.script, language := data.language, fontSize := data.fontSize,
                scrollMargin := data.scrollMargin, created := e.created, accessed := tSave },
              ?_, rfl, rfl, rfl, rfl, ?_⟩
      · simp [save_script, store_set, h2]
      · simp [load_script, save_script, store_set, h2]

/-- C6 witness: `spec_C6` at the empty store, code `"abc12"`, and a concrete
record, with both hypotheses discharged by evaluation. -/
theorem spec_C6_witness :
    load_script "T2" "abc12" (fun _ => none) = (none, fun _ => none) ∧
    ∃ rec,
      save_script "T1" "abc12"
        { script := "hello", language := "en", fontSize := 48, scrollMargin := 30 }
        (fun _ => none) "abc12" = some rec ∧
      rec.script = "hello" ∧ rec.language = "en" ∧
      rec.fontSize = 48 ∧ rec.scrollMargin = 30 ∧
      (load_script "T2" "abc12"
        (save_script "T1" "abc12"
          { script := "hello", language := "en", fontSize := 48, scrollMargin := 30 }
          (fun _ => none))).1 = some { rec with accessed := "T2" } :=
  spec_C6 (fun _ => none) (fun _ => none) "abc12" "abc12"
    { script := "hello", language := "en", fontSize := 48, scrollMargin := 30 }
    "T1" "T2" "T2" (by decide) rfl

/-- C7: the `created` timestamp written by the first save of a code is
preserved by every subsequent save to that code (a save overwrites every
other field, `accessed` being set to the save time), and every successful
load rewrites the stored record with `accessed` set to the load time. -/
theorem spec_C7 (fs : ScriptStore) (code : String) (d1 : ScriptData) (t1 : String)
    (hnofile : fs code = none) :
    (∃ rec1, save_script t1 code d1 fs code = some rec1 ∧
      rec1.created = t1 ∧ rec1.accessed = t1) ∧
    (∀ later : List (String × ScriptData),
      ∃ rec, save_many code later (save_script t1 code d1 fs) code = some rec ∧
        rec.created = t1) ∧
    (∀ (fs2 : ScriptStore) (rec0 : StoredScript), fs2 code = some rec0 →
      ∀ (t2 : String) (d2 : ScriptData),
        save_script t2 code d2 fs2 code =
          some { script := d2.script, language := d2.language, fontSize := d2.fontSize,
                 scrollMargin := d2.scrollMargin, created := rec0.created, accessed := t2 }) ∧
    (∀ (fs3 : ScriptStore) (rec0 : StoredScript), fs3 code = some rec0 → ∀ tL : String,
      load_script tL code fs3 =
        (some { rec0 with accessed := tL }, store_set fs3 code { rec0 with accessed := tL })) := by
  refine ⟨⟨{ script := d1.script, language := d1.language, fontSize := d1.fontSize,
             scrollMargin := d1.scrollMargin, created := t1, accessed := t1 },
           ?_, rfl, rfl⟩, fun later => ?_, ?_, ?_⟩
  · simp [save_script, store_set, hnofile]
  · obtain ⟨rec, hrec, hcr⟩ :=
      save_many_preserves_created code later (save_script t1 code d1 fs)
        { script := d1.script, language := d1.language, fontSize := d1.fontSize,
          scrollMargin := d1.scrollMargin, created := t1, accessed := t1 }
        (by simp [save_script, store_set, hnofile])
    exact ⟨rec, hrec, hcr⟩
  · exact fun fs2 rec0 h t2 d2 => save_script_created_of_some h t2 d2
  · intro fs3 rec0 h tL
    simp [load_script, h]

/-- C7 witness: `spec_C7` at the empty store and code `"abc12"`, with the
no-backing-file hypothesis discharged by evaluation, then specialised to one
subsequent save and one load. -/
theorem spec_C7_witness :
    (∃ rec1, save_script "T1" "abc12" { script := "s" } (fun _ => none) "abc12" = some rec1 ∧
      rec1.created = "T1" ∧ rec1.accessed = "T1") ∧
    (∃ rec, save_many "abc12" [("T2", { script := "s2" })]
        (save_script "T1" "abc12" { script := "s" } (fun _ => none)) "abc12" = some rec ∧
      rec.created = "T1") :=
  ⟨(spec_C7 (fun _ => none) "abc12" { script := "s" } "T1" rfl).1,
   (spec_C7 (fun _ => none) "abc12" { script := "s" } "T1" rfl).2.1
     [("T2", { script := "s2" })]⟩

/-! ## WebSocket session protocol handler (`websocket_endpoint`, main.py lines 271-396)

The external Vosk engine, the filesystem check `Path(p).exists()` and the
exception behaviour of `Model` / `KaldiRecognizer` are abstracted into an
`Engine` record over opaque types `μ` (model handles), `ρ` (recognizer
states) and `β` (binary audio frames).  The engine's JSON results are
abstracted to the text they carry: `result` returns `Result()["text"]`,
`partialResult` returns `PartialResult()["partial"]` and `finalResult`
returns `FinalResult()["text"]`, each together with the recognizer state
after the call.  `SetWords(True)` is folded into `newRecognizer`.

A client text frame is modelled by the outcome of `json.loads` plus the
two `data.get` reads the handler performs: `invalidJson e` is a frame on
which `json.loads` raises (message `e`), `nonObject e` is valid JSON that is
not an object, so that `data.get("type")` raises (message `e`), and
`obj ty mo` is a JSON object with optional `type` field `ty` and optional
`model` field `mo` (a missing or null field reads as `none`; the empty
string model is kept distinct because Python's `not model_path` also
rejects `""`).  Either raising frame escapes to the handler's outer
`except Exception` clause, which sends a best-effort `error` event and ends
the receive loop (main.py lines 387-395); the transport send is modelled as
succeeding. -/

/-- Abstraction of the external recognition engine and filesystem. -/
structure Engine (μ ρ β : Type) where
  pathExists : String → Bool
  loadModel : String → Except String μ
  newRecognizer : μ → Except String ρ
  acceptWaveform : ρ → β → Bool × ρ
  result : ρ → String × ρ
  partialResult : ρ → String × ρ
  finalResult : ρ → String × ρ

/-- Per-connection session state: the local variables of
`websocket_endpoint` (`recognizer`, `audio_chunks_received`, main.py lines
291-292) together with the process-wide model cache `loaded_models`
(main.py line 64), threaded through the session. -/
structure SessState (μ ρ : Type) where
  recognizer : Option ρ
  audio_chunks_received : Nat
  cache : List (String × μ)
deriving DecidableEq

/-- Outcome of `json.loads` on a client text frame (see section comment). -/
inductive TextFrame where
  | invalidJson (errMsg : String)
  | nonObject (errMsg : String)
  | obj (msgType : Option String) (modelPath : Option String)
deriving DecidableEq

/-- A client WebSocket message: a text frame or a binary audio frame. -/
inductive Msg (β : Type) where
  | text (frame : TextFrame)
  | bytes (b : β)
deriving DecidableEq

/-- A server-emitted protocol event (main.py lines 310-383). -/
inductive Event where
  | ready
  | error (message : String)
  | stopped
  | pong
  | partialEv (text : String) (words : List String)
  | finalEv (text : String) (words : List String)
deriving DecidableEq

/-- Model of `get_model` (main.py lines 67-79): return the cached model for
the path, otherwise load it, record it in the cache and return it;  a load
failure re-raises and the assignment into the cache never happens. -/
def get_model (E : Engine μ ρ β) (cache : List (String × μ)) (mp : String) :
    Except String (μ × List (String × μ)) :=
  match cache.lookup mp with
  | some m => Except.ok (m, cache)
  | none =>
    match E.loadModel mp with
    | Except.ok m => Except.ok (m, (mp, m) :: cache)
    | Except.error e => Except.error e

/-- The `start` branch of the handler (main.py lines 304-330): reject a
missing, empty or non-existing model path with an `error` event; otherwise
attach a fresh recognizer, reset the chunk counter and send `ready`, or
send an `error` event carrying the exception text when the model load or
the recognizer construction throws. -/
def handle_start (E : Engine μ ρ β) (st : SessState μ ρ) (modelPath : Option String) :
    List Event × SessState μ ρ × Bool :=
  match modelPath with
  | none => ([Event.error "Invalid model path"], st, true)
  | some mp =>
    if mp = "" then ([Event.error "Invalid model path"], st, true)
    else if E.pathExists mp = false then ([Event.error "Invalid model path"], st, true)
    else
      match get_model E st.cache mp with
      | Except.error e => ([Event.error e], st, true)
      | Except.ok (m, cache') =>
        match E.newRecognizer m with
        | Except.error e => ([Event.error e], { st with cache := cache' }, true)
        | Except.ok r =>
          ([Event.ready],
           { recognizer := some r, audio_chunks_received := 0, cache := cache' }, true)

/-- The `stop` branch of the handler (main.py lines 332-348): flush the
attached recognizer and emit a `final` event when the flushed text is
non-empty, then detach and always emit `stopped`. -/
def handle_stop (E : Engine μ ρ β) (st : SessState μ ρ) :
    List Event × SessState μ ρ × Bool :=
  match st.recognizer with
  | none => ([Event.stopped], { st with recognizer := none }, true)
  | some r =>
    let t := pyStrip (E.finalResult r).1
    ((if t = "" then [] else [Event.finalEv t (pyWords t)]) ++ [Event.stopped],
     { st with recognizer := none }, true)

/-- The binary-frame branch of the handler (main.py lines 354-383): discard
audio when no recognizer is attached; otherwise count the chunk, feed it,
and emit a `final` or `partial` event exactly when the decoded text is
non-empty. -/
def handle_bytes (E : Engine μ ρ β) (st : SessState μ ρ) (b : β) :
    List Event × SessState μ ρ × Bool :=
  match st.recognizer with
  | none => ([], st, true)
  | some r =>
    let n := st.audio_chunks_received + 1
    match E.acceptWaveform r b with
    | (true, r1) =>
      match E.result r1 with
      | (t0, r2) =>
        let t := pyStrip t0
        ((if t = "" then [] else [Event.finalEv t (pyWords t)]),
         { st with recognizer := some r2, audio_chunks_received := n }, true)
    | (false, r1) =>
      match E.partialResult r1 with
      | (t0, r2) =>
        let t := pyStrip t0
        ((if t = "" then [] else [Event.partialEv t (pyWords t)]),
         { st with recognizer := some r2, audio_chunks_received := n }, true)

/-- One iteration of the handler's receive loop (main.py lines 295-396):
the returned Boolean is whether the loop continues; a text frame on which
`json.loads` or `data.get` raises reaches the outer exception clause, which
emits a best-effort `error` event and ends the loop. -/
def websocket_step (E : Engine μ ρ β) (st : SessState μ ρ) :
    Msg β → List Event × SessState μ ρ × Bool
  | Msg.text (TextFrame.invalidJson e) => ([Event.error e], st, false)
  | Msg.text (TextFrame.nonObject e) => ([Event.error e], st, false)
  | Msg.text (TextFrame.obj ty mo) =>
    if ty = some "start" then handle_start E st mo
    else if ty = some "stop" then handle_stop E st
    else if ty = some "ping" then ([Event.pong], st, true)
    else ([], st, true)
  | Msg.bytes b => handle_bytes E st b

/-- The handler's receive loop over a finite message trace: concatenates
the emitted events, stopping early when a step ends the loop. -/
def websocket_run (E : Engine μ ρ β) :
    SessState μ ρ → List (Msg β) → List Event × SessState μ ρ × Bool
  | st, [] => ([], st, true)
  | st, msg :: rest =>
    match websocket_step E st msg with
    | (evs, st', false) => (evs, st', false)
    | (evs, st', true) =>
      match websocket_run E st' rest with
      | (evs2, st'', alive) => (evs ++ evs2, st'', alive)

/-- The session state right after the connection is accepted
(main.py lines 291-292), over a pre-existing model cache. -/
def initialSession (cache : List (String × μ)) : SessState μ ρ :=
  { recognizer := none, audio_chunks_received := 0, cache := cache }

/-- A concrete engine for witnesses: every path exists, loads and
recognizer construction succeed, `AcceptWaveform` reports no utterance
boundary, and the partial / flush texts are fixed non-empty phrases. -/
def testEngine : Engine Unit Nat Unit where
  pathExists _ := true
  loadModel _ := Except.ok ()
  newRecognizer _ := Except.ok 0
  acceptWaveform r _ := (false, r + 1)
  result r := ("", r)
  partialResult r := ("hello there", r)
  finalResult r := ("good bye", r)

/-- A concrete engine for witnesses whose model load always throws. -/
def failEngine : Engine Unit Nat Unit where
  pathExists _ := true
  loadModel _ := Except.error "boom"
  newRecognizer _ := Except.error "recognizer boom"
  acceptWaveform r _ := (true, r)
  result r := ("", r)
  partialResult r := ("", r)
  finalResult r := ("", r)

lemma handle_stop_spec (E : Engine μ ρ β) (st : SessState μ ρ) :
    ∃ pre, handle_stop E st = (pre ++ [Event.stopped], { st with recognizer := none }, true) ∧
      (st.recognizer = none → pre = []) ∧
      (pre = [] ∨ ∃ t, t ≠ "" ∧ pre = [Event.finalEv t (pyWords t)]) := by
  cases hr : st.recognizer with
  | none => exact ⟨[], by simp [handle_stop, hr], fun _ => rfl, Or.inl rfl⟩
  | some r =>
    by_cases ht : pyStrip (E.finalResult r).1 = ""
    · exact ⟨[], by simp [handle_stop, hr, ht], fun _ => rfl, Or.inl rfl⟩
    · refine ⟨[Event.finalEv (pyStrip (E.finalResult r).1)
          (pyWords (pyStrip (E.finalResult r).1))],
        by simp [handle_stop, hr, ht], fun h => Option.noConfusion h, Or.inr ⟨_, ht, rfl⟩⟩

lemma handle_bytes_some (E : Engine μ ρ β) (st : SessState μ ρ) (r : ρ) (b : β)
    (h : st.recognizer = some r) :
    ∃ ev1 r2, handle_bytes E st b =
      (ev1, { st with
              recognizer := some r2
              audio_chunks_received := st.audio_chunks_received + 1 }, true) ∧
      (ev1 = [] ∨ ∃ t, t ≠ "" ∧
        (ev1 = [Event.partialEv t (pyWords t)] ∨ ev1 = [Event.finalEv t (pyWords t)])) := by
  rcases hA : E.acceptWaveform r b with ⟨fin, r1⟩
  cases fin with
  | false =>
    rcases hR : E.partialResult r1 with ⟨t0, r2⟩
    by_cases ht : pyStrip t0 = ""
    · exact ⟨[], r2, by simp [handle_bytes, h, hA, hR, ht], Or.inl rfl⟩
    · exact ⟨[Event.partialEv (pyStrip t0) (pyWords (pyStrip t0))], r2,
        by simp [handle_bytes, h, hA, hR, ht], Or.inr ⟨_, ht, Or.inl rfl⟩⟩
  | true =>
    rcases hR : E.result r1 with ⟨t0, r2⟩
    by_cases ht : pyStrip t0 = ""
    · exact ⟨[], r2, by simp [handle_bytes, h, hA, hR, ht], Or.inl rfl⟩
    · exact ⟨[Event.finalEv (pyStrip t0) (pyWords (pyStrip t0))], r2,
        by simp [handle_bytes, h, hA, hR, ht], Or.inr ⟨_, ht, Or.inr rfl⟩⟩

/-- C1: from a fresh session, a `start` with a valid model, one binary
audio chunk and a `stop` produce exactly `ready`, then zero-or-one
`partial` or `final` event (only for non-empty decoded text), then
zero-or-one `final` event from the stop flush (only for non-empty flushed
text), then `stopped`, and the loop stays alive with the recognizer
detached. -/
theorem spec_C1 (E : Engine μ ρ β) (st0 : SessState μ ρ) (mp : String)
    (m : μ) (cache' : List (String × μ)) (r : ρ) (b : β)
    (hne : mp ≠ "") (hex : E.pathExists mp = true)
    (hgm : get_model E st0.cache mp = Except.ok (m, cache'))
    (hrec : E.newRecognizer m = Except.ok r) :
    ∃ ev1 ev2 stF,
      websocket_run E st0
        [Msg.text (TextFrame.obj (some "start") (some mp)),
         Msg.bytes b,
         Msg.text (TextFrame.obj (some "stop") none)] =
        (Event.ready :: (ev1 ++ ev2 ++ [Event.stopped]), stF, true) ∧
      (ev1 = [] ∨ ∃ t, t ≠ "" ∧
        (ev1 = [Event.partialEv t (pyWords t)] ∨ ev1 = [Event.finalEv t (pyWords t)])) ∧
      (ev2 = [] ∨ ∃ t, t ≠ "" ∧ ev2 = [Event.finalEv t (pyWords t)]) ∧
      stF.recognizer = none := by
  obtain ⟨ev1, r2, hbytes, hev1⟩ :=
    handle_bytes_some E
      { recognizer := some r, audio_chunks_received := 0, cache := cache' } r b rfl
  obtain ⟨ev2, hstop, _, hev2⟩ :=
    handle_stop_spec E
      { recognizer := some r2, audio_chunks_received := 1, cache := cache' }
  have h1 : websocket_step E st0
      (Msg.text (TextFrame.obj (some "start") (some mp))) =
      ([Event.ready], { recognizer := some r, audio_chunks_received := 0, cache := cache' },
       true) := by
    simp [websocket_step, handle_start, hne, hex, hgm, hrec]
  have h2 : websocket_step E
      { recognizer := some r, audio_chunks_received := 0, cache := cache' }
      (Msg.bytes (β := β) b) =
      (ev1, { recognizer := some r2, audio_chunks_received := 1, cache := cache' }, true) := by
    simpa [websocket_step] using hbytes
  have h3 : websocket_step E
      { recognizer := some r2, audio_chunks_received := 1, cache := cache' }
      (Msg.text (β := β) (TextFrame.obj (some "stop") none)) =
      (ev2 ++ [Event.stopped],
       { recognizer := none, audio_chunks_received := 1, cache := cache' }, true) := by
    simpa [websocket_step] using hstop
  refine ⟨ev1, ev2,
    { recognizer := none, audio_chunks_received := 1, cache := cache' }, ?_, hev1, hev2, rfl⟩
  simp [websocket_run, h1, h2, h3]

/-- C1 witness: `spec_C1` at the all-succeeding `testEngine`, an empty
cache, model path `"vosk-model-small-en-us-0.15"` and one audio frame. -/
theorem spec_C1_witness :
    ∃ ev1 ev2 stF,
      websocket_run testEngine (initialSession [])
        [Msg.text (TextFrame.obj (some "start") (some "vosk-model-small-en-us-0.15")),
         Msg.bytes (),
         Msg.text (TextFrame.obj (some "stop") none)] =
        (Event.ready :: (ev1 ++ ev2 ++ [Event.stopped]), stF, true) ∧
      (ev1 = [] ∨ ∃ t, t ≠ "" ∧
        (ev1 = [Event.partialEv t (pyWords t)] ∨ ev1 = [Event.finalEv t (pyWords t)])) ∧
      (ev2 = [] ∨ ∃ t, t ≠ "" ∧ ev2 = [Event.finalEv t (pyWords t)]) ∧
      stF.recognizer = none :=
  spec_C1 testEngine (initialSession []) "vosk-model-small-en-us-0.15" ()
    [("vosk-model-small-en-us-0.15", ())] 0 () (by decide) rfl rfl rfl

/-- C2 counterexample: a text frame that is not valid JSON is not ignored.
`json.loads` raises, the exception escapes to the handler's outer
`except Exception` clause (main.py lines 387-395), which emits an `error`
event and ends the receive loop — so an event is emitted and the session
stops processing subsequent messages, contrary to the claim. -/
theorem spec_C2_counterexample :
    (websocket_step testEngine (initialSession [] : SessState Unit Nat)
        (Msg.text (TextFrame.invalidJson "Expecting value"))).1 ≠ [] ∧
    (websocket_step testEngine (initialSession [] : SessState Unit Nat)
        (Msg.text (TextFrame.invalidJson "Expecting value"))).2.2 = false := by
  exact ⟨by decide, rfl⟩

/-- C2 amended: a control message that parses as a JSON object whose
`type` field is missing or unrecognized is ignored — no event is emitted,
the session state (recognizer and chunk counter) is unchanged, and the
receive loop continues; a text frame that is not valid JSON (or is valid
JSON but not an object) instead raises, and the handler's catch-all emits
an `error` event and ends the receive loop. -/
theorem spec_C2_amended (E : Engine μ ρ β) (st : SessState μ ρ)
    (ty mo : Option String)
    (h : ty = none ∨ ∃ t, ty = some t ∧ t ≠ "start" ∧ t ≠ "stop" ∧ t ≠ "ping") :
    websocket_step E st (Msg.text (TextFrame.obj ty mo)) = ([], st, true) ∧
    (∀ e, websocket_step E st (Msg.text (TextFrame.invalidJson e)) =
      ([Event.error e], st, false)) ∧
    (∀ e, websocket_step E st (Msg.text (TextFrame.nonObject e)) =
      ([Event.error e], st, false)) := by
  refine ⟨?_, fun e => rfl, fun e => rfl⟩
  rcases h with rfl | ⟨t, rfl, h1, h2, h3⟩
  · simp [websocket_step]
  · simp [websocket_step, h1, h2, h3]

/-- C2 witness: `spec_C2_amended` at the `testEngine`, a fresh session and
the unrecognized control type `"configure"`. -/
theorem spec_C2_amended_witness :
    websocket_step testEngine (initialSession [] : SessState Unit Nat)
      (Msg.text (TextFrame.obj (some "configure") none)) = ([], initialSession [], true) ∧
    (∀ e, websocket_step testEngine (initialSession [] : SessState Unit Nat)
      (Msg.text (TextFrame.invalidJson e)) = ([Event.error e], initialSession [], false)) ∧
    (∀ e, websocket_step testEngine (initialSession [] : SessState Unit Nat)
      (Msg.text (TextFrame.nonObject e)) = ([Event.error e], initialSession [], false)) :=
  spec_C2_amended testEngine (initialSession []) (some "configure") none
    (Or.inr ⟨"configure", rfl, by decide, by decide, by decide⟩)

/-- C3: a `start` whose model path is absent, empty or non-existing, or
whose model load or recognizer construction throws, emits exactly one
`error` event, leaves the attached recognizer and the chunk counter
unchanged, and the receive loop continues. -/
theorem spec_C3 (E : Engine μ ρ β) (st : SessState μ ρ) (mo : Option String)
    (hbad :
      mo = none ∨
      (∃ mp, mo = some mp ∧ (mp = "" ∨ E.pathExists mp = false)) ∨
      (∃ mp e, mo = some mp ∧ mp ≠ "" ∧ E.pathExists mp = true ∧
        get_model E st.cache mp = Except.error e) ∨
      (∃ mp m cache' e, mo = some mp ∧ mp ≠ "" ∧ E.pathExists mp = true ∧
        get_model E st.cache mp = Except.ok (m, cache') ∧
        E.newRecognizer m = Except.error e)) :
    ∃ emsg st',
      websocket_step E st (Msg.text (TextFrame.obj (some "start") mo)) =
        ([Event.error emsg], st', true) ∧
      st'.recognizer = st.recognizer ∧
      st'.audio_chunks_received = st.audio_chunks_received := by
  rcases hbad with rfl | ⟨mp, rfl, hc⟩ | ⟨mp, e, rfl, hne, hex, hgm⟩ |
    ⟨mp, m, cache', e, rfl, hne, hex, hgm, hrec⟩
  · exact ⟨"Invalid model path", st, by simp [websocket_step, handle_start], rfl, rfl⟩
  · rcases hc with rfl | hc
    · exact ⟨"Invalid model path", st, by simp [websocket_step, handle_start], rfl, rfl⟩
    · exact ⟨"Invalid model path", st, by simp [websocket_step, handle_start, hc], rfl, rfl⟩
  · exact ⟨e, st, by simp [websocket_step, handle_start, hne, hex, hgm], rfl, rfl⟩
  · exact ⟨e, { st with cache := cache' },
      by simp [websocket_step, handle_start, hne, hex, hgm, hrec], rfl, rfl⟩

/-- C3 witness: `spec_C3` at the `failEngine`, whose model load throws
`"boom"`, on a fresh session and an existing path. -/
theorem spec_C3_witness :
    ∃ emsg st',
      websocket_step failEngine (initialSession [] : SessState Unit Nat)
        (Msg.text (TextFrame.obj (some "start") (some "somemodel"))) =
        ([Event.error emsg], st', true) ∧
      st'.recognizer = (initialSession [] : SessState Unit Nat).recognizer ∧
      st'.audio_chunks_received =
        (initialSession [] : SessState Unit Nat).audio_chunks_received :=
  spec_C3 failEngine (initialSession []) (some "somemodel")
    (Or.inr (Or.inr (Or.inl ⟨"somemodel", "boom", rfl, by decide, rfl, rfl⟩)))

/-- C4: `stop` is idempotent — in every session state it detaches the
recognizer, always ends its events with `stopped`, emits nothing besides an
optional non-empty `final` flush (never an `error`), keeps the loop alive,
and from a fresh session yields exactly the single event `stopped`. -/
theorem spec_C4 (E : Engine μ ρ β) (st : SessState μ ρ) (mo : Option String)
    (cache : List (String × μ)) :
    (∃ pre, websocket_step E st (Msg.text (TextFrame.obj (some "stop") mo)) =
        (pre ++ [Event.stopped], { st with recognizer := none }, true) ∧
      (st.recognizer = none → pre = []) ∧
      (pre = [] ∨ ∃ t, t ≠ "" ∧ pre = [Event.finalEv t (pyWords t)])) ∧
    websocket_run E (initialSession cache) [Msg.text (TextFrame.obj (some "stop") mo)] =
      ([Event.stopped], initialSession cache, true) := by
  constructor
  · obtain ⟨pre, hs, hnone, halt⟩ := handle_stop_spec E st
    exact ⟨pre, by simpa [websocket_step] using hs, hnone, halt⟩
  · simp [websocket_run, websocket_step, handle_stop, initialSession]

/-- C4 witness: `spec_C4` at the `testEngine`, a session holding a live
recognizer, and an empty initial cache. -/
theorem spec_C4_witness :
    (∃ pre, websocket_step testEngine
        { recognizer := some 7, audio_chunks_received := 3, cache := [] }
        (Msg.text (TextFrame.obj (some "stop") none)) =
        (pre ++ [Event.stopped],
         { recognizer := (none : Option Nat), audio_chunks_received := 3,
           cache := ([] : List (String × Unit)) }, true) ∧
      ((some 7 : Option Nat) = none → pre = []) ∧
      (pre = [] ∨ ∃ t, t ≠ "" ∧ pre = [Event.finalEv t (pyWords t)])) ∧
    websocket_run testEngine (initialSession [] : SessState Unit Nat)
      [Msg.text (TextFrame.obj (some "stop") none)] =
      ([Event.stopped], initialSession [], true) :=
  spec_C4 testEngine
    { recognizer := some 7, audio_chunks_received := 3, cache := [] } none []

/-- C5: a binary audio frame received while no recognizer is attached is
silently discarded — no event, unchanged state (in particular an unchanged
chunk counter), and the receive loop continues. -/
theorem spec_C5 (E : Engine μ ρ β) (st : SessState μ ρ) (b : β)
    (h : st.recognizer = none) :
    websocket_step E st (Msg.bytes b) = ([], st, true) := by
  simp [websocket_step, handle_bytes, h]

/-- C5 witness: `spec_C5` at the `testEngine` and a fresh session, which
has no recognizer attached. -/
theorem spec_C5_witness :
    websocket_step testEngine (initialSession [] : SessState Unit Nat) (Msg.bytes ()) =
      ([], initialSession [], true) :=
  spec_C5 testEngine (initialSession []) () rfl

/-- C10: when the model load throws, `get_model` re-raises the same
exception and records no cache entry — the session's cache is unchanged by
the failed `start`, a cache entry exists only for a path whose load
succeeded, and a later `start` with the same path reaches `loadModel`
again instead of reusing a broken handle. -/
theorem spec_C10 (E : Engine μ ρ β) (cache : List (String × μ)) (mp e : String)
    (hnc : cache.lookup mp = none) (hfail : E.loadModel mp = Except.error e) :
    get_model E cache mp = Except.error e ∧
    (∀ st : SessState μ ρ, st.cache = cache → mp ≠ "" → E.pathExists mp = true →
      handle_start E st (some mp) = ([Event.error e], st, true)) ∧
    (∀ (cache2 : List (String × μ)) (mp2 : String) (m : μ)
        (cache2' : List (String × μ)),
      get_model E cache2 mp2 = Except.ok (m, cache2') →
      ∀ p, (cache2'.lookup p).isSome →
        (cache2.lookup p).isSome ∨ (p = mp2 ∧ E.loadModel mp2 = Except.ok m)) := by
  have hg : get_model E cache mp = Except.error e := by
    simp [get_model, hnc, hfail]
  refine ⟨hg, fun st hst hne hex => ?_, ?_⟩
  · simp [handle_start, hne, hex, hst, hg]
  · intro cache2 mp2 m cache2' hok p hp
    unfold get_model at hok
    cases hl : cache2.lookup mp2 with
    | some m0 =>
      rw [hl] at hok
      simp only [Except.ok.injEq, Prod.mk.injEq] at hok
      obtain ⟨hm, hc⟩ := hok
      subst hc
      exact Or.inl hp
    | none =>
      rw [hl] at hok
      cases hload : E.loadModel mp2 with
      | ok m1 =>
        rw [hload] at hok
        simp only [Except.ok.injEq, Prod.mk.injEq] at hok
        obtain ⟨hm, hc⟩ := hok
        subst hm
        subst hc
        by_cases hpm : p = mp2
        · exact Or.inr ⟨hpm, rfl⟩
        · have hb : (p == mp2) = false := by
            rw [beq_eq_false_iff_ne]
            exact hpm
          refine Or.inl ?_
          simpa [List.lookup, hb] using hp
      | error e2 =>
        rw [hload] at hok
        cases hok

/-- C10 witness: `spec_C10` at the `failEngine`, an empty cache and the
path `"somemodel"`, with both hypotheses discharged by evaluation. -/
theorem spec_C10_witness :
    get_model failEngine [] "somemodel" = Except.error "boom" ∧
    (∀ st : SessState Unit Nat, st.cache = [] → "somemodel" ≠ "" →
      failEngine.pathExists "somemodel" = true →
      handle_start failEngine st (some "somemodel") =
        ([Event.error "boom"], st, true)) ∧
    (∀ (cache2 : List (String × Unit)) (mp2 : String) (m : Unit)
        (cache2' : List (String × Unit)),
      get_model failEngine cache2 mp2 = Except.ok (m, cache2') →
      ∀ p, (cache2'.lookup p).isSome →
        (cache2.lookup p).isSome ∨ (p = mp2 ∧ failEngine.loadModel mp2 = Except.ok m)) :=
  spec_C10 failEngine [] "somemodel" "boom" rfl rfl

/-! ## PPTX import (`api_import_pptx`, main.py lines 250-264)

A parsed presentation is modelled as its slide list in document order, each
slide carrying the `has_notes_slide` flag and the raw notes text
(`slide.notes_slide.notes_text_frame.text`); the OOXML parsing itself is
external. -/

/-- A slide of a parsed presentation, as read by the import loop. -/
structure Slide where
  has_notes_slide : Bool
  notes_text : String
deriving DecidableEq

/-- The paragraph a slide contributes (main.py lines 253-256): the trimmed
notes text, when the slide has a notes section and the trimmed text is
non-empty. -/
def notePart (s : Slide) : List String :=
  if s.has_notes_slide ∧ pyStrip s.notes_text ≠ "" then [pyStrip s.notes_text] else []

/-- The collected `parts` of the import loop (main.py lines 250-260):
each slide's note paragraph, with the transition marker `"[next slide]"`
after every slide except the last (`i < len(prs.slides) - 1`). -/
def pptx_parts_go (total : Nat) : Nat → List Slide → List String
  | _, [] => []
  | i, s :: rest =>
    notePart s ++ (if i < total - 1 then ["[next slide]"] else []) ++
      pptx_parts_go total (i + 1) rest

/-- Model of the extraction performed by `api_import_pptx`
(main.py lines 250-264): the parts joined with a blank line, and the slide
count. -/
def extract_pptx_script (slides : List Slide) : String × Nat :=
  (String.intercalate "\n\n" (pptx_parts_go slides.length 0 slides), slides.length)

/-- Modelled from the spec's wording for comparison: the note paragraph of
each slide in order, with exactly one `"[next slide]"` paragraph between
any two consecutive slides and never after the last. -/
def claimParts : List Slide → List String
  | [] => []
  | [s] => notePart s
  | s :: s2 :: rest => notePart s ++ ["[next slide]"] ++ claimParts (s2 :: rest)

lemma pptx_parts_go_eq_claimParts (slides : List Slide) :
    ∀ i : Nat, pptx_parts_go (i + slides.length) i slides = claimParts slides := by
  induction slides with
  | nil => intro i; rfl
  | cons s rest ih =>
    intro i
    cases rest with
    | nil =>
      simp [pptx_parts_go, claimParts, notePart]
    | cons s2 rest' =>
      have h1 : pptx_parts_go (i + (s :: s2 :: rest').length) i (s :: s2 :: rest') =
          notePart s ++
            (if i < i + (s :: s2 :: rest').length - 1 then ["[next slide]"] else []) ++
            pptx_parts_go (i + (s :: s2 :: rest').length) (i + 1) (s2 :: rest') := rfl
      have hlt : i < i + (s :: s2 :: rest').length - 1 := by
        simp only [List.length_cons]
        omega
      have h2 : i + (s :: s2 :: rest').length = (i + 1) + (s2 :: rest').length := by
        simp only [List.length_cons]
        omega
      rw [h1, if_pos hlt, h2, ih (i + 1)]
      rfl

/-- C9: the extraction appends the trimmed notes of each slide with a
non-empty notes section as one paragraph in document order, puts the
literal `"[next slide]"` paragraph between any two consecutive slides and
never after the last, joins all paragraphs with a blank line, and reports
the slide count; in particular a three-slide document with notes `"A"` and
`"C"` on slides 1 and 3 and no notes on slide 2 yields
`"A\n\n[next slide]\n\n[next slide]\n\nC"` and slide count 3. -/
theorem spec_C9 (slides : List Slide) :
    extract_pptx_script slides =
      (String.intercalate "\n\n" (claimParts slides), slides.length) ∧
    extract_pptx_script
      [{ has_notes_slide := true, notes_text := "A" },
       { has_notes_slide := false, notes_text := "" },
       { has_notes_slide := true, notes_text := "C" }] =
      ("A\n\n[next slide]\n\n[next slide]\n\nC", 3) := by
  constructor
  · have h := pptx_parts_go_eq_claimParts slides 0
    simp only [Nat.zero_add] at h
    simp [extract_pptx_script, h]
  · decide

end Prompter
